import Mathlib

set_option synthInstance.maxSize 512

/-!
Verification of the COCO annotation-adapter classes of
`3. Model/objectdetection/Faster-RCNN/utils/dataset.py`
(`myCocoDetection` and `myCocolimit`), shallowly embedded in Lean 4.

Numbers occurring in bounding boxes are modelled as exact rationals (`ℚ`);
image ids and category ids are natural numbers.  The external pycocotools
`COCO` object is modelled as a read-only store (`CocoStore`) exposing the
store queries the adapter uses: the image-id list (`coco.imgs` keys in store
order), per-image annotation loading (`coco.loadAnns(coco.getAnnIds(imgIds=i))`,
i.e. pycocotools' `imgToAnns`), the category table (`coco.cats`), and the
derived queries `getCatIds` / `getImgIds`.  Python `set` ordering inside
pycocotools' `getImgIds` is unspecified; it is modelled here as store order,
which is immaterial to the set-level and multiplicity-level claims proved
below.
-/

/-- One COCO annotation: `bbox = [x, y, w, h]` (fields `bbox0..bbox3`,
matching indices `obj['bbox'][0..3]` in the source) and `category_id`. -/
structure Ann where
  bbox0 : ℚ
  bbox1 : ℚ
  bbox2 : ℚ
  bbox3 : ℚ
  category_id : ℕ
deriving DecidableEq, Repr

/-- The read-only COCO annotation store the adapter is built over.
`imgs` is the image-id list in store order, `imgToAnns i` the annotation
list of image `i` (what `coco.loadAnns(coco.getAnnIds(imgIds=i))` returns),
`cats` the category table as (id, name) pairs in store order. -/
structure CocoStore where
  imgs : List ℕ
  imgToAnns : ℕ → List Ann
  cats : List (ℕ × String)

/-- pycocotools `coco.getCatIds(catNms=catNms)`: ids of the categories whose
name is in `catNms`, in category-table order. -/
def getCatIds (store : CocoStore) (catNms : List String) : List ℕ :=
  (store.cats.filter (fun c => catNms.contains c.2)).map (fun c => c.1)

/-- pycocotools `coco.getImgIds(catIds=catId)` for a single category id:
the image ids having at least one annotation of that category (deduplicated;
Python set order modelled as store order). -/
def getImgIds (store : CocoStore) (catId : ℕ) : List ℕ :=
  store.imgs.filter (fun i => (store.imgToAnns i).any (fun a => a.category_id == catId))

/-- `is_valid_data` (identical in `myCocoDetection` line 36 and `myCocolimit`
line 112): false on an empty annotation list, false as soon as some
annotation has a bbox component among `bbox[2:]` (width or height) that is
`<= 1`, true otherwise. -/
def is_valid_data (anno : List Ann) : Bool :=
  if anno.length = 0 then false
  else !(anno.any (fun obj => [obj.bbox2, obj.bbox3].any (fun o => decide (o ≤ 1))))

/-- `myCocoDetection.__init__` lines 22-30: the index list `self.ids` after
construction.  With `remove_invalid_data` the store's image-id list is
filtered by `is_valid_data` applied to each image's loaded annotations;
otherwise it is the store's full image-id list. -/
def detectionIds (store : CocoStore) (remove_invalid_data : Bool) : List ℕ :=
  if remove_invalid_data then
    store.imgs.filter (fun i => is_valid_data (store.imgToAnns i))
  else
    store.imgs

/-- `myCocolimit.__init__` line 93: `self.catIds`. -/
def limitCatIds (store : CocoStore) (class_list : List String) : List ℕ :=
  getCatIds store class_list

/-- `myCocolimit.__init__` lines 94-96: the pre-validation index list, built
by `self.ids.extend(self.coco.getImgIds(catIds=id))` over each resolved
category id — a concatenation, with no deduplication across categories. -/
def limitPreIds (store : CocoStore) (class_list : List String) : List ℕ :=
  (limitCatIds store class_list).flatMap (fun cid => getImgIds store cid)

/-- The annotation view `myCocolimit.__init__` lines 101-102 pass to
`is_valid_data` during validation: the raw, unfiltered annotation list
`self.coco.loadAnns(self.coco.getAnnIds(imgIds=img_id))`. -/
def limitValidationView (store : CocoStore) (img_id : ℕ) : List Ann :=
  store.imgToAnns img_id

/-- `myCocolimit.__init__` lines 98-106: `self.ids` after construction. -/
def limitIds (store : CocoStore) (class_list : List String)
    (remove_invalid_data : Bool) : List ℕ :=
  if remove_invalid_data then
    (limitPreIds store class_list).filter
      (fun i => is_valid_data (limitValidationView store i))
  else
    limitPreIds store class_list

/-- `myCocolimit._load_target` lines 157-160: the raw annotation list of the
image restricted to the annotations whose `category_id` is in `self.catIds`. -/
def limit_load_target (store : CocoStore) (catIds : List ℕ) (id : ℕ) : List Ann :=
  (store.imgToAnns id).filter (fun ann => catIds.contains ann.category_id)

/-- The bbox conversion performed per annotation in `__getitem__`
(lines 53-56 / 129-132): `[x, y, x + w, y + h]`. -/
def convert_bbox (obj : Ann) : ℚ × ℚ × ℚ × ℚ :=
  (obj.bbox0, obj.bbox1, obj.bbox0 + obj.bbox2, obj.bbox1 + obj.bbox3)

/-- Python list indexing `l[index]` with an `int` index: non-negative indices
address from the front, negative indices in `[-len, -1]` wrap to the end, and
anything else raises `IndexError` (modelled as `none`). -/
def pylist_get {α : Type} (l : List α) (index : ℤ) : Option α :=
  if 0 ≤ index then l.get? index.toNat
  else if 0 ≤ index + l.length then l.get? (index + l.length).toNat
  else none

/-- `myCocoDetection.__getitem__` lines 46-58 (target assembly as returned on
the show / no-transform paths): indexes the precomputed id list with Python
semantics, loads the image's full annotation list, and builds the parallel
`bboxes` / `labels` lists in one pass over it. -/
def detection_getitem (store : CocoStore) (remove_invalid_data : Bool)
    (index : ℤ) : Option (ℕ × List (ℚ × ℚ × ℚ × ℚ) × List ℕ) :=
  (pylist_get (detectionIds store remove_invalid_data) index).map
    (fun idx =>
      (idx, (store.imgToAnns idx).map convert_bbox,
        (store.imgToAnns idx).map (fun obj => obj.category_id)))

/-- `myCocolimit.__getitem__` lines 122-134: same assembly, but over the
category-filtered view produced by `myCocolimit._load_target`. -/
def limit_getitem (store : CocoStore) (class_list : List String)
    (remove_invalid_data : Bool) (index : ℤ) :
    Option (ℕ × List (ℚ × ℚ × ℚ × ℚ) × List ℕ) :=
  (pylist_get (limitIds store class_list remove_invalid_data) index).map
    (fun idx =>
      (idx, (limit_load_target store (limitCatIds store class_list) idx).map convert_bbox,
        (limit_load_target store (limitCatIds store class_list) idx).map
          (fun obj => obj.category_id)))

/-- The flattened coordinate array of a box list, as `np.array(bboxes)` holds
it row-major before the transform is applied (lines 141 / 65). -/
def flatten_boxes (boxes : List (ℚ × ℚ × ℚ × ℚ)) : List ℚ :=
  boxes.flatMap (fun b => [b.1, b.2.1, b.2.2.1, b.2.2.2])

/-- `np.reshape(-1, 4)` applied to a flat coordinate array: groups the array
into rows of four, failing (numpy `ValueError`, modelled as `none`) exactly
when the total element count is not a multiple of four. -/
def chunk4 : List ℚ → Option (List (ℚ × ℚ × ℚ × ℚ))
  | [] => some []
  | a :: b :: c :: d :: rest => (chunk4 rest).map (fun bs => (a, b, c, d) :: bs)
  | _ => none

/-- `myCocoDetection.__getitem__` transform branch (lines 63-73 / 139-149):
the caller-supplied transform, modelled by its effect `tf` on the flattened
box-coordinate array, is applied to the box array, the result is reshaped to
`(-1, 4)`, and the reshaped boxes are returned next to the UNtransformed
label list.  The reshape is the only failure point: nothing compares the
resulting box count with the label count. -/
def detection_getitem_tf (store : CocoStore) (remove_invalid_data : Bool)
    (tf : List ℚ → List ℚ) (index : ℤ) :
    Option (ℕ × List (ℚ × ℚ × ℚ × ℚ) × List ℕ) :=
  (pylist_get (detectionIds store remove_invalid_data) index).bind
    (fun idx =>
      (chunk4 (tf (flatten_boxes ((store.imgToAnns idx).map convert_bbox)))).map
        (fun newBoxes =>
          (idx, newBoxes, (store.imgToAnns idx).map (fun obj => obj.category_id))))

/-- A small concrete store used to instantiate the theorems below:
image 1 holds a well-formed person annotation and a well-formed dog
annotation, image 2 holds no annotations, image 3 holds one degenerate dog
annotation (width 1/2). -/
def annP : Ann := ⟨10, 10, 50, 80, 1⟩

/-- Well-formed dog annotation of `storeA` image 1. -/
def annD : Ann := ⟨0, 0, 5, 5, 2⟩

/-- Degenerate dog annotation of `storeA` image 3 (width 1/2 ≤ 1). -/
def annBad : Ann := ⟨0, 0, 1/2, 5, 2⟩

/-- The concrete three-image store. -/
def storeA : CocoStore where
  imgs := [1, 2, 3]
  imgToAnns := fun i => if i = 1 then [annP, annD] else if i = 3 then [annBad] else []
  cats := [(1, "person"), (2, "dog")]

/-- C2: `is_valid_data` returns false exactly on the empty annotation list and
on lists containing at least one annotation whose width (`bbox[2]`) or height
(`bbox[3]`) is `≤ 1`; on every other list it returns true. -/
theorem is_valid_data_false_iff (anno : List Ann) :
    is_valid_data anno = false ↔
      anno = [] ∨ ∃ a ∈ anno, a.bbox2 ≤ 1 ∨ a.bbox3 ≤ 1 := by
  unfold is_valid_data
  split
  case isTrue h =>
    simp [List.length_eq_zero.mp h]
  case isFalse h =>
    have hne : anno ≠ [] := by simpa [List.length_eq_zero] using h
    simp [List.any_eq_true, hne]

/-- Helper: the row count produced by a successful `(-1, 4)` reshape is the
coordinate count divided by four. -/
theorem chunk4_some_length : ∀ (l : List ℚ) (bs : List (ℚ × ℚ × ℚ × ℚ)),
    chunk4 l = some bs → 4 * bs.length = l.length := by
  intro l
  induction l using chunk4.induct with
  | case1 =>
    intro bs h
    simp only [chunk4, Option.some.injEq] at h
    simp [← h]
  | case2 a b c d rest ih =>
    intro bs h
    simp only [chunk4, Option.map_eq_some'] at h
    obtain ⟨bs2, hbs2, rfl⟩ := h
    have := ih bs2 hbs2
    simp only [List.length_cons]
    omega
  | case3 l h1 h2 =>
    intro bs h
    simp [chunk4] at h

/-- Helper: a `(-1, 4)` reshape fails exactly when the coordinate count is
not a multiple of four. -/
theorem chunk4_eq_none_iff : ∀ l : List ℚ, chunk4 l = none ↔ ¬ (4 ∣ l.length) := by
  intro l
  induction l using chunk4.induct with
  | case1 => simp [chunk4]
  | case2 a b c d rest ih =>
    simp only [chunk4, Option.map_eq_none', List.length_cons, ih]
    omega
  | case3 l h1 h2 =>
    rcases l with _ | ⟨a, _ | ⟨b, _ | ⟨c, _ | ⟨d, rest⟩⟩⟩⟩
    · exact absurd rfl h1
    · exact iff_of_true rfl (by norm_num)
    · exact iff_of_true rfl (by norm_num)
    · exact iff_of_true rfl (by norm_num)
    · exact absurd rfl (h2 a b c d rest)

/-- Helper: every image id in the pre-validation index list of `myCocolimit`
is an image id of the store. -/
theorem mem_imgs_of_mem_limitPreIds {store : CocoStore} {class_list : List String}
    {i : ℕ} (h : i ∈ limitPreIds store class_list) : i ∈ store.imgs := by
  simp only [limitPreIds, List.mem_flatMap, getImgIds, List.mem_filter] at h
  obtain ⟨cid, _, himg, _⟩ := h
  exact himg

/-- Helper: length and pointwise agreement of the parallel `bboxes` / `labels`
lists built by one pass over an annotation list. -/
theorem getitem_map_aligned {anns : List Ann} {boxes : List (ℚ × ℚ × ℚ × ℚ)}
    {labels : List ℕ} (j : ℕ) (hb : boxes = anns.map convert_bbox)
    (hl : labels = anns.map (fun obj => obj.category_id)) :
    boxes.length = labels.length ∧ labels.length = anns.length ∧
      boxes.get? j = (anns.get? j).map convert_bbox ∧
      labels.get? j = (anns.get? j).map (fun obj => obj.category_id) := by
  subst hb hl
  exact ⟨by simp, by simp, List.get?_map _ _ _, List.get?_map _ _ _⟩

/-- C4: every record returned by `get` — of either adapter — has equally many
boxes and labels, label `j` is the `category_id` of the same annotation whose
bbox produced box `j`, and the common length is the number of annotations in
the view the record was derived from: the full annotation list for
`myCocoDetection`, the category-filtered view for `myCocolimit`. -/
theorem getitem_box_label_alignment (store : CocoStore) (class_list : List String)
    (rid : Bool) (indexD indexL : ℤ) (idxD idxL : ℕ)
    (boxesD boxesL : List (ℚ × ℚ × ℚ × ℚ)) (labelsD labelsL : List ℕ) (j : ℕ) :
    (detection_getitem store rid indexD = some (idxD, boxesD, labelsD) →
        boxesD.length = labelsD.length ∧
        labelsD.length = (store.imgToAnns idxD).length ∧
        boxesD.get? j = ((store.imgToAnns idxD).get? j).map convert_bbox ∧
        labelsD.get? j = ((store.imgToAnns idxD).get? j).map (fun obj => obj.category_id)) ∧
    (limit_getitem store class_list rid indexL = some (idxL, boxesL, labelsL) →
        boxesL.length = labelsL.length ∧
        labelsL.length = (limit_load_target store (limitCatIds store class_list) idxL).length ∧
        boxesL.get? j =
          ((limit_load_target store (limitCatIds store class_list) idxL).get? j).map convert_bbox ∧
        labelsL.get? j =
          ((limit_load_target store (limitCatIds store class_list) idxL).get? j).map
            (fun obj => obj.category_id)) := by
  constructor
  · intro hget
    unfold detection_getitem at hget
    rw [Option.map_eq_some'] at hget
    obtain ⟨i, hpy, heq⟩ := hget
    simp only [Prod.mk.injEq] at heq
    obtain ⟨rfl, hb, hl⟩ := heq
    exact getitem_map_aligned j hb.symm hl.symm
  · intro hget
    unfold limit_getitem at hget
    rw [Option.map_eq_some'] at hget
    obtain ⟨i, hpy, heq⟩ := hget
    simp only [Prod.mk.injEq] at heq
    obtain ⟨rfl, hb, hl⟩ := heq
    exact getitem_map_aligned j hb.symm hl.symm

/-- C4 witness at concrete inputs: `storeA`, index 0 of `myCocoDetection`
(image 1, both annotations) and index 0 of `myCocolimit` restricted to
`["person"]` (image 1, only the person annotation). -/
theorem getitem_box_label_alignment_witness :
    (((storeA.imgToAnns 1).map convert_bbox).length =
        ((storeA.imgToAnns 1).map (fun obj => obj.category_id)).length ∧
      ((storeA.imgToAnns 1).map (fun obj => obj.category_id)).length =
        (storeA.imgToAnns 1).length ∧
      ((storeA.imgToAnns 1).map convert_bbox).get? 0 =
        ((storeA.imgToAnns 1).get? 0).map convert_bbox ∧
      ((storeA.imgToAnns 1).map (fun obj => obj.category_id)).get? 0 =
        ((storeA.imgToAnns 1).get? 0).map (fun obj => obj.category_id)) ∧
    (((limit_load_target storeA (limitCatIds storeA ["person"]) 1).map convert_bbox).length =
        ((limit_load_target storeA (limitCatIds storeA ["person"]) 1).map
          (fun obj => obj.category_id)).length ∧
      ((limit_load_target storeA (limitCatIds storeA ["person"]) 1).map
          (fun obj => obj.category_id)).length =
        (limit_load_target storeA (limitCatIds storeA ["person"]) 1).length ∧
      ((limit_load_target storeA (limitCatIds storeA ["person"]) 1).map convert_bbox).get? 0 =
        ((limit_load_target storeA (limitCatIds storeA ["person"]) 1).get? 0).map convert_bbox ∧
      ((limit_load_target storeA (limitCatIds storeA ["person"]) 1).map
          (fun obj => obj.category_id)).get? 0 =
        ((limit_load_target storeA (limitCatIds storeA ["person"]) 1).get? 0).map
          (fun obj => obj.category_id)) :=
  ⟨(getitem_box_label_alignment storeA ["person"] true 0 0 1 1
      ((storeA.imgToAnns 1).map convert_bbox)
      ((limit_load_target storeA (limitCatIds storeA ["person"]) 1).map convert_bbox)
      ((storeA.imgToAnns 1).map (fun obj => obj.category_id))
      ((limit_load_target storeA (limitCatIds storeA ["person"]) 1).map
        (fun obj => obj.category_id)) 0).1
    (by simp +decide [detection_getitem, detectionIds, pylist_get, storeA,
          is_valid_data, annP, annD, annBad] <;> norm_num),
   (getitem_box_label_alignment storeA ["person"] true 0 0 1 1
      ((storeA.imgToAnns 1).map convert_bbox)
      ((limit_load_target storeA (limitCatIds storeA ["person"]) 1).map convert_bbox)
      ((storeA.imgToAnns 1).map (fun obj => obj.category_id))
      ((limit_load_target storeA (limitCatIds storeA ["person"]) 1).map
        (fun obj => obj.category_id)) 0).2
    (by simp +decide [limit_getitem, limitIds, limitPreIds, limitCatIds, getCatIds,
          getImgIds, limit_load_target, limitValidationView, pylist_get, storeA,
          is_valid_data, annP, annD, annBad] <;> norm_num)⟩

/-- C7: the index list built by the category-restricted adapter is a subset
of the unrestricted adapter's index list over the same store (same
`remove_invalid_data` flag), and every label of a record returned by the
restricted adapter's `get` is among the category ids resolved from the
requested names at construction. -/
theorem limit_subset_and_label_membership (store : CocoStore)
    (class_list : List String) (rid : Bool) (i : ℕ) (index : ℤ) (idx : ℕ)
    (boxes : List (ℚ × ℚ × ℚ × ℚ)) (labels : List ℕ) (l : ℕ) :
    (i ∈ limitIds store class_list rid → i ∈ detectionIds store rid) ∧
    (limit_getitem store class_list rid index = some (idx, boxes, labels) →
      l ∈ labels → l ∈ limitCatIds store class_list) := by
  constructor
  · intro hi
    cases rid with
    | false =>
      simp only [limitIds, Bool.false_eq_true, if_false] at hi
      simpa [detectionIds] using mem_imgs_of_mem_limitPreIds hi
    | true =>
      simp only [limitIds, if_true] at hi
      obtain ⟨hpre, hval⟩ := List.mem_filter.mp hi
      simp only [detectionIds, if_true]
      exact List.mem_filter.mpr ⟨mem_imgs_of_mem_limitPreIds hpre, hval⟩
  · intro hget hl
    unfold limit_getitem at hget
    rw [Option.map_eq_some'] at hget
    obtain ⟨j, hpy, heq⟩ := hget
    simp only [Prod.mk.injEq] at heq
    obtain ⟨rfl, hb, hlab⟩ := heq
    rw [← hlab] at hl
    obtain ⟨ann, hann, rfl⟩ := List.mem_map.mp hl
    have hc := (List.mem_filter.mp hann).2
    simpa using hc

/-- C7 witness at a concrete input: `storeA` restricted to `["person"]`,
image id 1, record at index 0 whose only label is the person id 1. -/
theorem limit_subset_and_label_membership_witness :
    1 ∈ detectionIds storeA true ∧ 1 ∈ limitCatIds storeA ["person"] :=
  ⟨(limit_subset_and_label_membership storeA ["person"] true 1 0 1
      ((limit_load_target storeA (limitCatIds storeA ["person"]) 1).map convert_bbox)
      ((limit_load_target storeA (limitCatIds storeA ["person"]) 1).map
        (fun obj => obj.category_id)) 1).1
    (by simp +decide [limitIds, limitPreIds, limitCatIds, getCatIds, getImgIds,
          limitValidationView, storeA, is_valid_data, annP, annD, annBad] <;> norm_num),
   (limit_subset_and_label_membership storeA ["person"] true 1 0 1
      ((limit_load_target storeA (limitCatIds storeA ["person"]) 1).map convert_bbox)
      ((limit_load_target storeA (limitCatIds storeA ["person"]) 1).map
        (fun obj => obj.category_id)) 1).2
    (by simp +decide [limit_getitem, limitIds, limitPreIds, limitCatIds, getCatIds,
          getImgIds, limit_load_target, limitValidationView, pylist_get, storeA,
          is_valid_data, annP, annD, annBad] <;> norm_num)
    (by simp +decide [limit_load_target, limitCatIds, getCatIds, storeA,
          annP, annD, annBad] <;> norm_num)⟩

/-- C10: with validation enabled, the index list of either adapter is an
order-preserving subsequence (sublist) of its pre-validation index list —
validation only removes image ids — and every image id kept satisfies the
validity predicate on the annotations that were loaded for it during
validation (the raw per-image annotation list in both adapters). -/
theorem validation_is_order_preserving_filter (store : CocoStore)
    (class_list : List String) (i : ℕ) :
    (detectionIds store true).Sublist store.imgs ∧
    (i ∈ detectionIds store true → is_valid_data (store.imgToAnns i) = true) ∧
    (limitIds store class_list true).Sublist (limitPreIds store class_list) ∧
    (i ∈ limitIds store class_list true →
      is_valid_data (limitValidationView store i) = true) := by
  refine ⟨?_, ?_, ?_, ?_⟩
  · simpa [detectionIds] using List.filter_sublist store.imgs
  · intro hi
    simp only [detectionIds, if_true] at hi
    exact (List.mem_filter.mp hi).2
  · simpa [limitIds] using List.filter_sublist (limitPreIds store class_list)
  · intro hi
    simp only [limitIds, if_true] at hi
    exact (List.mem_filter.mp hi).2

/-- C10 witness at a concrete input: `storeA` (image 2 has no annotations and
image 3 a degenerate box, so validation keeps exactly image 1). -/
theorem validation_is_order_preserving_filter_witness :
    (detectionIds storeA true).Sublist storeA.imgs ∧
    is_valid_data (storeA.imgToAnns 1) = true ∧
    (limitIds storeA ["person"] true).Sublist (limitPreIds storeA ["person"]) ∧
    is_valid_data (limitValidationView storeA 1) = true :=
  ⟨(validation_is_order_preserving_filter storeA ["person"] 1).1,
   (validation_is_order_preserving_filter storeA ["person"] 1).2.1
     (by simp +decide [detectionIds, storeA, is_valid_data, annP, annD, annBad] <;> norm_num),
   (validation_is_order_preserving_filter storeA ["person"] 1).2.2.1,
   (validation_is_order_preserving_filter storeA ["person"] 1).2.2.2
     (by simp +decide [limitIds, limitPreIds, limitCatIds, getCatIds, getImgIds,
           limitValidationView, storeA, is_valid_data, annP, annD, annBad] <;> norm_num)⟩

/-- C1 counterexample: in `storeA` restricted to `["person"]`, image 1 is in
the index list, but the annotation view checked by the validity predicate at
construction (the raw list, holding the person AND the dog annotation) is not
the category-filtered view `get` derives boxes and labels from (the person
annotation alone). -/
theorem limit_validation_view_ne_retrieval_view :
    1 ∈ limitIds storeA ["person"] true ∧
    limitValidationView storeA 1 ≠
      limit_load_target storeA (limitCatIds storeA ["person"]) 1 := by
  constructor
  · simp +decide [limitIds, limitPreIds, limitCatIds, getCatIds, getImgIds,
      limitValidationView, storeA, is_valid_data, annP, annD, annBad] <;> norm_num
  · simp +decide [limitValidationView, limit_load_target, limitCatIds, getCatIds,
      storeA, annP, annD, annBad] <;> norm_num

/-- C1 amended: for every image id in the category-restricted index list, the
construction-time validity check was applied to the RAW unfiltered annotation
list, while `get` derives boxes and labels from the category-filtered sublist
of that list; the two views coincide (only) when every annotation of the
image has a category id in the resolved set. -/
theorem limit_validation_unfiltered_retrieval_filtered (store : CocoStore)
    (class_list : List String) (i : ℕ)
    (h : i ∈ limitIds store class_list true)
    (hall : ∀ ann ∈ limitValidationView store i,
      ann.category_id ∈ limitCatIds store class_list) :
    is_valid_data (limitValidationView store i) = true ∧
    limit_load_target store (limitCatIds store class_list) i =
      (limitValidationView store i).filter
        (fun ann => (limitCatIds store class_list).contains ann.category_id) ∧
    limit_load_target store (limitCatIds store class_list) i =
      limitValidationView store i := by
  refine ⟨?_, rfl, ?_⟩
  · simp only [limitIds, if_true] at h
    exact (List.mem_filter.mp h).2
  · unfold limit_load_target limitValidationView
    apply List.filter_eq_self.mpr
    intro a ha
    simpa using hall a ha

/-- C1 amended witness at a concrete input: `storeA` restricted to
`["person", "dog"]`, image 1, where every annotation matches the resolved
set, so the filtered and unfiltered views agree. -/
theorem limit_validation_unfiltered_retrieval_filtered_witness :
    is_valid_data (limitValidationView storeA 1) = true ∧
    limit_load_target storeA (limitCatIds storeA ["person", "dog"]) 1 =
      (limitValidationView storeA 1).filter
        (fun ann => (limitCatIds storeA ["person", "dog"]).contains ann.category_id) ∧
    limit_load_target storeA (limitCatIds storeA ["person", "dog"]) 1 =
      limitValidationView storeA 1 :=
  limit_validation_unfiltered_retrieval_filtered storeA ["person", "dog"] 1
    (by simp +decide [limitIds, limitPreIds, limitCatIds, getCatIds, getImgIds,
          limitValidationView, storeA, is_valid_data, annP, annD, annBad] <;> norm_num)
    (by simp +decide [limitValidationView, limitCatIds, getCatIds, storeA,
          annP, annD, annBad] <;> norm_num)

/-- C5 counterexample: building `myCocolimit` over `storeA` with the
non-empty name list `["nonexistent_category"]` resolves to zero category ids,
yet construction does not fail — no error of any kind is raised anywhere in
`__init__` (the embedded construction is a total function) — and instead
produces a dataset whose index list is empty, on which every `get` is
out of range. -/
theorem nonexistent_category_build_returns_empty_dataset :
    limitCatIds storeA ["nonexistent_category"] = [] ∧
    limitIds storeA ["nonexistent_category"] true = [] ∧
    limit_getitem storeA ["nonexistent_category"] true 0 = none := by
  refine ⟨?_, ?_, ?_⟩
  · simp +decide [limitCatIds, getCatIds, storeA] <;> norm_num
  · simp +decide [limitIds, limitPreIds, limitCatIds, getCatIds, getImgIds,
      limitValidationView, storeA, is_valid_data, annP, annD, annBad] <;> norm_num
  · simp +decide [limit_getitem, limitIds, limitPreIds, limitCatIds, getCatIds,
      getImgIds, limitValidationView, pylist_get, storeA, is_valid_data,
      annP, annD, annBad] <;> norm_num

/-- C5 amended: when a (possibly non-empty) category-name list resolves to
zero known category ids, construction succeeds and yields a dataset with an
empty pre-validation and an empty final index list, for either value of the
validation flag. -/
theorem empty_category_resolution_builds_empty_index (store : CocoStore)
    (class_list : List String) (rid : Bool)
    (h : limitCatIds store class_list = []) :
    limitPreIds store class_list = [] ∧ limitIds store class_list rid = [] := by
  have hpre : limitPreIds store class_list = [] := by
    simp [limitPreIds, h]
  exact ⟨hpre, by cases rid <;> simp [limitIds, hpre]⟩

/-- C5 amended witness at a concrete input. -/
theorem empty_category_resolution_builds_empty_index_witness :
    limitPreIds storeA ["nonexistent_category"] = [] ∧
    limitIds storeA ["nonexistent_category"] true = [] :=
  empty_category_resolution_builds_empty_index storeA ["nonexistent_category"] true
    (by simp +decide [limitCatIds, getCatIds, storeA] <;> norm_num)

/-- C6 counterexample: in `storeA` with requested names `["person", "dog"]`,
image 1 contains annotations of both requested categories and appears TWICE
in the constructed index list — duplicates are not removed. -/
theorem limit_ids_not_deduplicated :
    limitIds storeA ["person", "dog"] true = [1, 1] ∧
    (limitIds storeA ["person", "dog"] true).count 1 = 2 := by
  have h : limitIds storeA ["person", "dog"] true = [1, 1] := by
    simp +decide [limitIds, limitPreIds, limitCatIds, getCatIds, getImgIds,
      limitValidationView, storeA, is_valid_data, annP, annD, annBad] <;> norm_num
  exact ⟨h, by rw [h]; rfl⟩

/-- Helper for the amended C6: multiplicity of an image id in the
concatenation of per-category image-id lists. -/
theorem count_flatMap_getImgIds (store : CocoStore) (hnd : store.imgs.Nodup)
    (i : ℕ) (hi : i ∈ store.imgs) :
    ∀ cs : List ℕ,
      ((cs.flatMap (fun cid => getImgIds store cid)).count i =
        (cs.filter
          (fun cid => (store.imgToAnns i).any (fun a => a.category_id == cid))).length) := by
  intro cs
  induction cs with
  | nil => simp
  | cons c cs ih =>
    rw [List.flatMap_cons, List.count_append, ih]
    by_cases hc : ((store.imgToAnns i).any (fun a => a.category_id == c)) = true
    · have hmem : i ∈ getImgIds store c := List.mem_filter.mpr ⟨hi, hc⟩
      have h1 : (getImgIds store c).count i = 1 :=
        List.count_eq_one_of_mem (hnd.filter _) hmem
      simp only [List.filter_cons, hc, if_true, List.length_cons, h1]
      omega
    · have hnm : i ∉ getImgIds store c := fun hin => hc (List.mem_filter.mp hin).2
      have h0 : (getImgIds store c).count i = 0 := List.count_eq_zero.mpr hnm
      simp [List.filter_cons, hc, h0]

/-- C6 amended: the pre-validation index list of `myCocolimit` is the
concatenation, over each resolved category id, of that category's image-id
list; an image id of the store appears in it once per requested category it
has an annotation of, so an image matching two requested categories appears
twice, not once. -/
theorem limit_pre_ids_multiplicity (store : CocoStore) (class_list : List String)
    (i : ℕ) (hnd : store.imgs.Nodup) (hi : i ∈ store.imgs) :
    (limitPreIds store class_list).count i =
      ((limitCatIds store class_list).filter
        (fun cid => (store.imgToAnns i).any (fun a => a.category_id == cid))).length :=
  count_flatMap_getImgIds store hnd i hi (limitCatIds store class_list)

/-- C6 amended witness at a concrete input: image 1 of `storeA` matches both
requested categories and has multiplicity 2 in the pre-validation list. -/
theorem limit_pre_ids_multiplicity_witness :
    (limitPreIds storeA ["person", "dog"]).count 1 =
      ((limitCatIds storeA ["person", "dog"]).filter
        (fun cid => (storeA.imgToAnns 1).any (fun a => a.category_id == cid))).length :=
  limit_pre_ids_multiplicity storeA ["person", "dog"] 1 (by decide) (by decide)

/-- C8 counterexample: over `storeA`, a configured transform that removes one
box (dropping the first four coordinates, leaving a multiple of four) does
NOT make `get` fail: `get(0)` returns a record whose single box stands next
to two labels — the cardinality mismatch is returned, not reported. -/
theorem transform_cardinality_change_returns_record :
    detection_getitem_tf storeA true (fun l : List ℚ => l.drop 4) 0 =
      some (1, [((0 : ℚ), (0 : ℚ), (5 : ℚ), (5 : ℚ))], [1, 2]) ∧
    [((0 : ℚ), (0 : ℚ), (5 : ℚ), (5 : ℚ))].length ≠ [1, 2].length := by
  constructor
  · simp +decide [detection_getitem_tf, detectionIds, pylist_get, storeA,
      is_valid_data, annP, annD, annBad, flatten_boxes, convert_bbox, chunk4] <;> norm_num
  · simp

/-- C8 amended: with a transform pipeline configured, `get` fails on the
reshape exactly when the transformed coordinate array's length is not a
multiple of four; whenever the transformed length IS a multiple of four —
including every case where the transform changed the box count by whole
boxes — `get` succeeds, returning `length / 4` boxes beside the original,
untransformed label list, with no cardinality check. -/
theorem transformed_getitem_reshape_only (store : CocoStore) (rid : Bool)
    (tf : List ℚ → List ℚ) (index : ℤ) (idx idx2 : ℕ)
    (boxes : List (ℚ × ℚ × ℚ × ℚ)) (labels : List ℕ)
    (hpy : pylist_get (detectionIds store rid) index = some idx) :
    (detection_getitem_tf store rid tf index = none ↔
      ¬ (4 ∣ (tf (flatten_boxes ((store.imgToAnns idx).map convert_bbox))).length)) ∧
    (detection_getitem_tf store rid tf index = some (idx2, boxes, labels) →
      idx2 = idx ∧
      labels = (store.imgToAnns idx).map (fun obj => obj.category_id) ∧
      4 * boxes.length =
        (tf (flatten_boxes ((store.imgToAnns idx).map convert_bbox))).length) := by
  constructor
  · unfold detection_getitem_tf
    rw [hpy, Option.some_bind, Option.map_eq_none']
    exact chunk4_eq_none_iff _
  · intro hget
    unfold detection_getitem_tf at hget
    rw [hpy, Option.some_bind, Option.map_eq_some'] at hget
    obtain ⟨bs, hbs, heq⟩ := hget
    simp only [Prod.mk.injEq] at heq
    obtain ⟨rfl, rfl, rfl⟩ := heq
    exact ⟨rfl, rfl, chunk4_some_length _ _ hbs⟩

/-- C8 amended witness at a concrete input: `storeA`, index 0, transform
dropping the first box's four coordinates (8 coordinates become 4). -/
theorem transformed_getitem_reshape_only_witness :
    (detection_getitem_tf storeA true (fun l : List ℚ => l.drop 4) 0 = none ↔
      ¬ (4 ∣ ((fun l : List ℚ => l.drop 4)
          (flatten_boxes ((storeA.imgToAnns 1).map convert_bbox))).length)) ∧
    (detection_getitem_tf storeA true (fun l : List ℚ => l.drop 4) 0 =
        some (1, [((0 : ℚ), (0 : ℚ), (5 : ℚ), (5 : ℚ))], [1, 2]) →
      (1 : ℕ) = 1 ∧
      [1, 2] = (storeA.imgToAnns 1).map (fun obj => obj.category_id) ∧
      4 * [((0 : ℚ), (0 : ℚ), (5 : ℚ), (5 : ℚ))].length =
        ((fun l : List ℚ => l.drop 4)
          (flatten_boxes ((storeA.imgToAnns 1).map convert_bbox))).length) :=
  transformed_getitem_reshape_only storeA true (fun l : List ℚ => l.drop 4) 0 1 1
    [((0 : ℚ), (0 : ℚ), (5 : ℚ), (5 : ℚ))] [1, 2]
    (by simp +decide [detectionIds, pylist_get, storeA, is_valid_data,
          annP, annD, annBad] <;> norm_num)

/-- C9 counterexample: over `storeA` (index list `[1]` after validation), the
negative index `-1` is accepted by `get` — Python list indexing wraps indices
in `[-len, -1]` to the end of the list — and returns image 1's record instead
of failing. -/
theorem getitem_negative_index_returns_record :
    detection_getitem storeA true (-1) =
      some (1, (storeA.imgToAnns 1).map convert_bbox,
        (storeA.imgToAnns 1).map (fun obj => obj.category_id)) ∧
    (-1 : ℤ) < 0 := by
  constructor
  · simp +decide [detection_getitem, detectionIds, pylist_get, storeA,
      is_valid_data, annP, annD, annBad] <;> norm_num
  · norm_num

/-- C9 amended: `get` fails (returns no record) exactly on the indices that
are out of range for Python list indexing: every index `≥ len` and every
index `< -len`; negative indices in `[-len, -1]` instead wrap to the end of
the index list. -/
theorem getitem_out_of_range_none (store : CocoStore) (rid : Bool) (index : ℤ)
    (h : index < -((detectionIds store rid).length : ℤ) ∨
      ((detectionIds store rid).length : ℤ) ≤ index) :
    detection_getitem store rid index = none := by
  unfold detection_getitem
  suffices hpy : pylist_get (detectionIds store rid) index = none by
    rw [hpy]; rfl
  unfold pylist_get
  rcases h with h | h
  · rw [if_neg (by omega), if_neg (by omega)]
  · rw [if_pos (by omega)]
    exact List.get?_eq_none.mpr (by omega)

/-- C9 amended witness at a concrete input: index 5 on `storeA`, whose index
list has length 1. -/
theorem getitem_out_of_range_none_witness :
    detection_getitem storeA true 5 = none :=
  getitem_out_of_range_none storeA true 5
    (Or.inr (by simp +decide [detectionIds, storeA, is_valid_data,
      annP, annD, annBad] <;> norm_num))
